import Mathlib

/-!
Shallow embedding of the GoalMentor conversation orchestrator
(`goalmentor_langgraph.py`, with the plan-generation variant of `main.py`).

Conventions of the embedding:
* The `GoalMentorState` TypedDict becomes a structure; Python dict-typed
  fields (`completion_status`, `user_feedback`) become association lists
  with Python dict insert/get semantics.
* The language-model backend (`llm.invoke`) is a port: a function from the
  message list to `Except Unit String`; `Except.error ()` models any raised
  exception (ModelUnavailable).  Each graph node is a Lean function of the
  port and the state; it additionally returns the number of model
  invocations it performed on the taken path, so call-count claims are
  provable.
* `json.loads` is modelled by `json_loads`, a total fuel-based parser for
  the JSON subset relevant here (objects, arrays, strings with the common
  escapes, integers, null/true/false).  Floats, exponents, and unicode
  escapes are outside the modelled subset (the parser rejects them); no
  claim depends on them.
* Python string helpers: `in` (substring test) is `str_contains`,
  `.lower()` is `py_lower`, `.strip()` is `py_strip` (list-based so
  they reduce in the kernel).
-/

/-- One plan step: the dict `{title, description, tips, key_actions}`. -/
structure Step where
  title : String
  description : String
  tips : String
  key_actions : String
deriving Repr, DecidableEq, Inhabited

/-- One conversation turn: the dict `{role, content}`. -/
structure Turn where
  role : String
  content : String
deriving Repr, DecidableEq, Inhabited

/-- A completion record value: `{completed_at, user_feedback}`. -/
structure CompletionInfo where
  completed_at : String
  user_feedback : String
deriving Repr, DecidableEq, Inhabited

/-- The `mode` literal of `GoalMentorState`. -/
inductive Mode where
  | goal_setting
  | planning
  | execution
  | help
  | completed
deriving Repr, DecidableEq, Inhabited

/-- The `GoalMentorState` TypedDict of `goalmentor_langgraph.py`. -/
structure GoalMentorState where
  goal : String
  goal_refined : Bool
  steps : List Step
  current_step_index : Nat
  user_message : String
  assistant_response : String
  conversation_history : List Turn
  mode : Mode
  user_feedback : List (String × String)
  stuck_count : Nat
  completion_status : List (Nat × CompletionInfo)
  next_action : String
deriving Repr, DecidableEq, Inhabited

/-- Role-tagged messages sent to the model (System/Human/AIMessage). -/
inductive Msg where
  | system (content : String)
  | human (content : String)
  | ai (content : String)
deriving Repr, DecidableEq, Inhabited

/-- The language-model port: one call, success text or failure. -/
structure LlmPort where
  invoke : List Msg → Except Unit String

/-- Python `pat in s` (substring membership): prefix test helper. -/
def chars_starts : List Char → List Char → Bool
  | [], _ => true
  | _ :: _, [] => false
  | p :: ps, c :: cs => if p = c then chars_starts ps cs else false

/-- Python `pat in s` (substring membership): scan helper. -/
def chars_has (pat : List Char) : List Char → Bool
  | [] => chars_starts pat []
  | c :: cs => if chars_starts pat (c :: cs) then true else chars_has pat cs

/-- Python `pat in s`: `pat` occurs as a contiguous substring of `s`. -/
def str_contains (s pat : String) : Bool :=
  chars_has pat.toList s.toList

/-- Python `str.lower()` (ASCII subset; the keyword matching in the source
only distinguishes ASCII).  List-based so it reduces in the kernel. -/
def py_lower (s : String) : String :=
  String.mk (s.toList.map Char.toLower)

/-- Python whitespace, as stripped by `str.strip()`. -/
def is_py_space (c : Char) : Bool :=
  c.toNat = 32 ∨ c.toNat = 9 ∨ c.toNat = 10 ∨ c.toNat = 13 ∨ c.toNat = 11 ∨ c.toNat = 12

/-- Python `s.strip()`. -/
def py_strip (s : String) : String :=
  String.mk (((s.toList.dropWhile is_py_space).reverse.dropWhile is_py_space).reverse)

/-- Python `s.startswith(pre)`. -/
def py_startswith (s pre : String) : Bool :=
  chars_starts pre.toList s.toList

/-- Python `s.replace(old, new)` on character lists: replace all
non-overlapping occurrences left to right.  Fuel-based so it reduces in
the kernel; the fuel in `py_replace` always suffices. -/
def replace_fuel (old new : List Char) : Nat → List Char → List Char
  | 0, s => s
  | _ + 1, [] => []
  | fuel + 1, c :: cs =>
    if chars_starts old (c :: cs) && !old.isEmpty then
      new ++ replace_fuel old new fuel ((c :: cs).drop old.length)
    else c :: replace_fuel old new fuel cs

/-- Python `s.replace(old, new)` (the source only replaces nonempty
patterns). -/
def py_replace (s old new : String) : String :=
  String.mk (replace_fuel old.toList new.toList (s.toList.length + 1) s.toList)

/-- Python `text.split("\n")` on character lists. -/
def py_split_nl_chars : List Char → List (List Char)
  | [] => [[]]
  | c :: cs =>
    if c.toNat = 10 then [] :: py_split_nl_chars cs
    else
      match py_split_nl_chars cs with
      | [] => [[c]]
      | h :: t => (c :: h) :: t

/-- Python `text.split("\n")`. -/
def py_split_nl (s : String) : List String :=
  (py_split_nl_chars s.toList).map String.mk

/-- JSON values, as produced by `json.loads`. -/
inductive Json where
  | null
  | bool (b : Bool)
  | num (n : Int)
  | str (s : String)
  | arr (xs : List Json)
  | obj (kvs : List (String × Json))
deriving Inhabited

/-- Whitespace characters skipped by the JSON parser. -/
def is_ws (c : Char) : Bool :=
  c.toNat = 32 ∨ c.toNat = 10 ∨ c.toNat = 9 ∨ c.toNat = 13

/-- Skip leading JSON whitespace. -/
def skip_ws : List Char → List Char
  | [] => []
  | c :: cs => if is_ws c then skip_ws cs else c :: cs

/-- Parse a JSON string body after the opening quote; handles the common
escapes.  First argument is fuel. -/
def parse_string_body : Nat → List Char → List Char → Option (String × List Char)
  | 0, _, _ => none
  | _ + 1, _, [] => none
  | fuel + 1, acc, c :: cs =>
    if c.toNat = 34 then some (String.mk acc.reverse, cs)
    else if c.toNat = 92 then
      match cs with
      | [] => none
      | d :: cs2 =>
        if d.toNat = 34 ∨ d.toNat = 92 ∨ d.toNat = 47 then
          parse_string_body fuel (d :: acc) cs2
        else if d.toNat = 110 then parse_string_body fuel (Char.ofNat 10 :: acc) cs2
        else if d.toNat = 116 then parse_string_body fuel (Char.ofNat 9 :: acc) cs2
        else if d.toNat = 114 then parse_string_body fuel (Char.ofNat 13 :: acc) cs2
        else none
    else parse_string_body fuel (c :: acc) cs

/-- Split off a maximal run of decimal digits. -/
def take_digits : List Char → (List Char × List Char)
  | [] => ([], [])
  | c :: cs =>
    if 48 ≤ c.toNat ∧ c.toNat ≤ 57 then
      let p := take_digits cs
      (c :: p.1, p.2)
    else ([], c :: cs)

/-- Decimal digit list to a natural number. -/
def digits_to_nat (acc : Nat) : List Char → Nat
  | [] => acc
  | c :: cs => digits_to_nat (acc * 10 + (c.toNat - 48)) cs

/-- Parse a nonempty run of digits as a natural number. -/
def parse_nat (cs : List Char) : Option (Nat × List Char) :=
  match take_digits cs with
  | ([], _) => none
  | (ds, rest) => some (digits_to_nat 0 ds, rest)

mutual

/-- Parse one JSON value (fuel-based recursive descent). -/
def parse_val : Nat → List Char → Option (Json × List Char)
  | 0, _ => none
  | fuel + 1, cs0 =>
    match skip_ws cs0 with
    | [] => none
    | c :: cs =>
      if c.toNat = 123 then
        match skip_ws cs with
        | [] => none
        | d :: cs2 =>
          if d.toNat = 125 then some (Json.obj [], cs2)
          else
            match parse_members fuel (d :: cs2) with
            | some (kvs, rest) => some (Json.obj kvs, rest)
            | none => none
      else if c.toNat = 91 then
        match skip_ws cs with
        | [] => none
        | d :: cs2 =>
          if d.toNat = 93 then some (Json.arr [], cs2)
          else
            match parse_elems fuel (d :: cs2) with
            | some (vs, rest) => some (Json.arr vs, rest)
            | none => none
      else if c.toNat = 34 then
        match parse_string_body (cs.length + 1) [] cs with
        | some (s, rest) => some (Json.str s, rest)
        | none => none
      else if (c :: cs).take 4 = ("null").toList then some (Json.null, (c :: cs).drop 4)
      else if (c :: cs).take 4 = ("true").toList then some (Json.bool true, (c :: cs).drop 4)
      else if (c :: cs).take 5 = ("false").toList then some (Json.bool false, (c :: cs).drop 5)
      else if c.toNat = 45 then
        match parse_nat cs with
        | some (n, rest) => some (Json.num (-(n : Int)), rest)
        | none => none
      else
        match parse_nat (c :: cs) with
        | some (n, rest) => some (Json.num (n : Int), rest)
        | none => none

/-- Parse the elements of a nonempty JSON array (after the `[`). -/
def parse_elems : Nat → List Char → Option (List Json × List Char)
  | 0, _ => none
  | fuel + 1, cs =>
    match parse_val fuel cs with
    | none => none
    | some (v, rest) =>
      match skip_ws rest with
      | [] => none
      | d :: rest2 =>
        if d.toNat = 44 then
          match parse_elems fuel rest2 with
          | some (vs, rest3) => some (v :: vs, rest3)
          | none => none
        else if d.toNat = 93 then some ([v], rest2)
        else none

/-- Parse the members of a nonempty JSON object (after the `\x7b`). -/
def parse_members : Nat → List Char → Option (List (String × Json) × List Char)
  | 0, _ => none
  | fuel + 1, cs =>
    match skip_ws cs with
    | [] => none
    | c :: cs2 =>
      if c.toNat = 34 then
        match parse_string_body (cs2.length + 1) [] cs2 with
        | none => none
        | some (key, rest) =>
          match skip_ws rest with
          | [] => none
          | d :: rest2 =>
            if d.toNat = 58 then
              match parse_val fuel rest2 with
              | none => none
              | some (v, rest3) =>
                match skip_ws rest3 with
                | [] => none
                | e :: rest4 =>
                  if e.toNat = 44 then
                    match parse_members fuel rest4 with
                    | some (kvs, rest5) => some ((key, v) :: kvs, rest5)
                    | none => none
                  else if e.toNat = 125 then some ([(key, v)], rest4)
                  else none
            else none
      else none

end

/-- `json.loads`: parse a complete JSON document or fail. -/
def json_loads (s : String) : Except Unit Json :=
  match parse_val (2 * s.length + 4) s.toList with
  | some (v, rest) => if skip_ws rest = [] then Except.ok v else Except.error ()
  | none => Except.error ()

/-- Python dict `.get` on a JSON object: last binding wins (as in
`json.loads` with duplicate keys). -/
def json_get (kvs : List (String × Json)) (k : String) : Option Json :=
  (kvs.reverse.find? (fun kv => kv.1 == k)).map (fun kv => kv.2)

/-- The `mode` literal as the string it is stored as in Python. -/
def mode_str : Mode → String
  | Mode.goal_setting => "goal_setting"
  | Mode.planning => "planning"
  | Mode.execution => "execution"
  | Mode.help => "help"
  | Mode.completed => "completed"

/-- Python dict assignment `d[k] = v`: replace the binding if the key is
present, otherwise append it. -/
def dict_insert (d : List (Nat × CompletionInfo)) (k : Nat) (v : CompletionInfo) :
    List (Nat × CompletionInfo) :=
  if d.any (fun kv => kv.1 == k) then
    d.map (fun kv => if kv.1 == k then (k, v) else kv)
  else d ++ [(k, v)]

/-- Python dict lookup / `in` test for `completion_status`. -/
def dict_get (d : List (Nat × CompletionInfo)) (k : Nat) : Option CompletionInfo :=
  (d.find? (fun kv => kv.1 == k)).map (fun kv => kv.2)

/-- `any(word in user_msg for word in ws)`. -/
def contains_any (user_msg : String) (ws : List String) : Bool :=
  ws.any (fun w => str_contains user_msg w)

/-- Keywords of the STEP_DONE intent (`execution_node`). -/
def step_done_words : List String :=
  ["done", "complete", "finished", "next"]

/-- Keywords of the NEEDS_HELP intent (`execution_node`). -/
def needs_help_words : List String :=
  ["help", "stuck", "difficult", "hard", "don\x27t know"]

/-- Phrases of the NEW_GOAL intent (`route_conversation`). -/
def new_goal_words : List String :=
  ["new goal", "start over", "different goal"]

/-- The synthesized system message of `create_conversation_context`. -/
def system_context (s : GoalMentorState) : String :=
  "You are a professional goal mentor. The user\x27s goal is: \"" ++ s.goal
    ++ "\"\n    \nCurrent situation:\n- Mode: " ++ mode_str s.mode
    ++ "\n- Current step: " ++ toString (s.current_step_index + 1)
    ++ " of " ++ toString s.steps.length
    ++ "\n- Times asked for help: " ++ toString s.stuck_count
    ++ "\n\nBe encouraging, practical, and conversational. Don\x27t be robotic."

/-- A history entry rendered as a role-tagged model message. -/
def render_turn (m : Turn) : Msg :=
  if m.role == ("user") then Msg.human m.content else Msg.ai m.content

/-- `create_conversation_context`: one system message, then the last six
history entries (`[-6:]`) in original order. -/
def create_conversation_context (s : GoalMentorState) : List Msg :=
  Msg.system (system_context s) ::
    (s.conversation_history.drop (s.conversation_history.length - 6)).map render_turn

/-- The `analysis_prompt` f-string of `goal_analysis_node`. -/
def analysis_prompt (goal user_msg : String) : String :=
  "\nThe user wants to achieve: \"" ++ goal
    ++ "\"\n\nAnalyze this goal and respond naturally:\n1. Is this goal specific and actionable enough?\n2. If not, ask 1-2 friendly questions to help refine it\n3. If it\x27s good, acknowledge it and show enthusiasm\n\nRecent user message: \""
    ++ user_msg ++ "\"\n\nBe conversational and encouraging, not robotic.\n"

/-- The message list sent by `goal_analysis_node`. -/
def goal_analysis_messages (s : GoalMentorState) : List Msg :=
  create_conversation_context s ++ [Msg.human (analysis_prompt s.goal s.user_message)]

/-- The fallback response of `goal_analysis_node`'s except branch. -/
def goal_analysis_fallback (goal : String) : String :=
  "I\x27m having trouble connecting right now. Let\x27s work with your goal: " ++ goal

/-- `goal_analysis_node`: analyze/refine the goal; second component is the
number of model invocations performed. -/
def goal_analysis_node (llm : LlmPort) (s : GoalMentorState) : GoalMentorState × Nat :=
  match llm.invoke (goal_analysis_messages s) with
  | Except.ok content =>
    let assistant_msg := py_strip content
    let needs_refinement := str_contains assistant_msg ("?") && !s.goal_refined
    let new_history :=
      s.conversation_history
        ++ (if s.user_message == ("") then ([] : List Turn) else [⟨"user", s.user_message⟩])
        ++ [⟨"assistant", assistant_msg⟩]
    ({ s with
        assistant_response := assistant_msg
        conversation_history := new_history
        mode := if needs_refinement then Mode.goal_setting else Mode.planning
        goal_refined := !needs_refinement }, 1)
  | Except.error _ =>
    ({ s with
        assistant_response := goal_analysis_fallback s.goal
        mode := Mode.planning
        goal_refined := true }, 1)

/-- The `planning_prompt` f-string of `planning_node` (literal braces of the
JSON template written escaped). -/
def planning_prompt (goal : String) : String :=
  "\nCreate a 4-week plan for: \"" ++ goal
    ++ "\"\n\nReturn ONLY a JSON object with this exact structure:\n\x7b\n    \"steps\": [\n        \x7b\n            \"title\": \"Week 1: [Short descriptive title]\",\n            \"description\": \"[What to focus on this week]\",\n            \"tips\": \"[2-3 practical tips for success]\",\n            \"key_actions\": \"[Specific things to do]\"\n        \x7d,\n        // ... 3 more weeks\n    ],\n    \"encouragement\": \"[Personal encouraging message about their goal]\"\n\x7d\n\nMake it practical, achievable, and motivating. Each week should build on the previous one.\n"

/-- The message list sent by `planning_node`. -/
def planning_messages (s : GoalMentorState) : List Msg :=
  create_conversation_context s ++ [Msg.human (planning_prompt s.goal)]

/-- `content.replace("```json", "").replace("```", "").strip()` applied when
the content starts with a code fence. -/
def strip_code_fences (content : String) : String :=
  if py_startswith content ("```json") then
    py_strip (py_replace (py_replace content ("```json") ("")) ("```") (""))
  else content

/-- Read a string-valued field of a parsed JSON object, with default --
models `plan_data.get(key, default)` at string type. -/
def json_get_str (j : Option Json) (dflt : String) : String :=
  match j with
  | some (Json.str s) => s
  | _ => dflt

/-- One element of the parsed `steps` array as a `Step` record.  Python
stores the raw dict; the embedding projects the four text fields (missing
fields become empty -- later Python field accesses on such dicts are
outside the modelled subset). -/
def json_to_step (j : Json) : Step :=
  match j with
  | Json.obj kvs =>
    ⟨json_get_str (json_get kvs ("title")) (""),
     json_get_str (json_get kvs ("description")) (""),
     json_get_str (json_get kvs ("tips")) (""),
     json_get_str (json_get kvs ("key_actions")) ("")⟩
  | _ => ⟨"", "", "", ""⟩

/-- The parsing phase of `planning_node`'s try block: strip fences, parse
JSON, read `steps` (default `[]`) and `encouragement` (default text).
`none` models a raised exception (JSON error, or `.get` on a non-dict). -/
def planning_parse (raw : String) : Option (List Step × String) :=
  let content := strip_code_fences (py_strip raw)
  match json_loads content with
  | Except.error _ => none
  | Except.ok j =>
    match j with
    | Json.obj kvs =>
      let steps :=
        match json_get kvs ("steps") with
        | some (Json.arr xs) => xs.map json_to_step
        | _ => []
      some (steps, json_get_str (json_get kvs ("encouragement"))
        ("Great goal! Let\x27s make it happen."))
    | _ => none

/-- The fixed deterministic four-step fallback plan of `planning_node`. -/
def fallback_steps (goal : String) : List Step :=
  [⟨"Week 1: Foundation Building",
    "Set up the basics for achieving " ++ goal,
    "Start small, be consistent, track your progress",
    "Research, plan, and take the first small step"⟩,
   ⟨"Week 2: Skill Development",
    "Focus on building key skills needed for " ++ goal,
    "Practice daily, seek feedback, don\x27t fear mistakes",
    "Dedicate time each day to skill-building activities"⟩,
   ⟨"Week 3: Implementation",
    "Apply what you\x27ve learned toward " ++ goal,
    "Take action, measure results, adjust as needed",
    "Execute your plan and track concrete progress"⟩,
   ⟨"Week 4: Optimization",
    "Refine your approach and plan next steps for " ++ goal,
    "Reflect on what worked, optimize your methods",
    "Fine-tune your approach and set up for continued success"⟩]

/-- The canned response accompanying the fallback plan. -/
def planning_fallback_response : String :=
  "I\x27ve created a solid 4-week plan for you! Let\x27s start with Week 1."

/-- The state produced by `planning_node`'s except branch. -/
def planning_fallback_state (s : GoalMentorState) : GoalMentorState :=
  { s with
      steps := fallback_steps s.goal
      assistant_response := planning_fallback_response
      conversation_history := s.conversation_history ++ [⟨"assistant", planning_fallback_response⟩]
      mode := Mode.execution
      current_step_index := 0 }

/-- `planning_node`: one plan-generation call; parse result installed
verbatim, any raised error replaced by the four-step fallback. -/
def planning_node (llm : LlmPort) (s : GoalMentorState) : GoalMentorState × Nat :=
  match llm.invoke (planning_messages s) with
  | Except.ok raw =>
    match planning_parse raw with
    | some (steps, encouragement) =>
      let resp := encouragement
        ++ "\n\nI\x27ve created your 4-week plan! Ready to start with Week 1?"
      ({ s with
          steps := steps
          assistant_response := resp
          conversation_history := s.conversation_history ++ [⟨"assistant", resp⟩]
          mode := Mode.execution
          current_step_index := 0 }, 1)
    | none => (planning_fallback_state s, 1)
  | Except.error _ => (planning_fallback_state s, 1)

/-- The all-steps-done congratulation of `execution_node`. -/
def congrats_all_done (goal : String) : String :=
  "🎉 Congratulations! You\x27ve completed all 4 weeks of your goal plan for \x27"
    ++ goal ++ "\x27! That\x27s amazing dedication."

/-- The step-transition message of `execution_node`. -/
def congrats_next (current_step next_step : Step) : String :=
  "✅ Awesome! You\x27ve completed " ++ current_step.title
    ++ "!\n\nReady for " ++ next_step.title ++ "?\n\n" ++ next_step.description

/-- The `step_context` f-string of `execution_node`'s general branch. -/
def step_context_prompt (current_step : Step) (user_message : String) : String :=
  "\nThe user is working on: " ++ current_step.title
    ++ "\nDescription: " ++ current_step.description
    ++ "\nTips: " ++ current_step.tips
    ++ "\n\nUser said: \"" ++ user_message
    ++ "\"\n\nRespond conversationally. Be encouraging and provide relevant advice for their current step.\n"

/-- The templated fallback of `execution_node`'s general branch. -/
def exec_step_fallback (current_step : Step) : String :=
  "I understand you\x27re working on " ++ current_step.title ++ ". "
    ++ current_step.tips ++ " What specific part would you like to focus on?"

/-- `execution_node`: overrun guard, STEP_DONE, NEEDS_HELP, or free-form
discussion of the current step.  Second component counts model calls. -/
def execution_node (llm : LlmPort) (s : GoalMentorState) : GoalMentorState × Nat :=
  let current_idx := s.current_step_index
  let steps := s.steps
  let user_msg := py_lower s.user_message
  if steps.length ≤ current_idx then
    ({ s with mode := Mode.completed }, 0)
  else
    let current_step := steps.getD current_idx default
    if contains_any user_msg step_done_words then
      let new_completions := dict_insert s.completion_status current_idx ⟨"now", user_msg⟩
      let new_idx := current_idx + 1
      let congrats_msg :=
        if steps.length ≤ new_idx then congrats_all_done s.goal
        else congrats_next current_step (steps.getD new_idx default)
      ({ s with
          current_step_index := new_idx
          completion_status := new_completions
          assistant_response := congrats_msg
          conversation_history := s.conversation_history
            ++ [⟨"user", s.user_message⟩, ⟨"assistant", congrats_msg⟩]
          mode := if steps.length ≤ new_idx then Mode.completed else Mode.execution }, 0)
    else if contains_any user_msg needs_help_words then
      ({ s with mode := Mode.help, stuck_count := s.stuck_count + 1 }, 0)
    else
      match llm.invoke (create_conversation_context s
          ++ [Msg.human (step_context_prompt current_step s.user_message)]) with
      | Except.ok content =>
        let assistant_msg := py_strip content
        ({ s with
            assistant_response := assistant_msg
            conversation_history := s.conversation_history
              ++ [⟨"user", s.user_message⟩, ⟨"assistant", assistant_msg⟩] }, 1)
      | Except.error _ =>
        ({ s with assistant_response := exec_step_fallback current_step }, 1)

/-- The escalating `help_level` selector of `help_node`. -/
def help_level (stuck_count : Nat) : String :=
  if stuck_count == 1 then "gentle encouragement and tips"
  else if stuck_count == 2 then "more specific, actionable advice"
  else "very detailed, step-by-step breakdown"

/-- The `help_prompt` f-string of `help_node`. -/
def help_prompt (current_step : Step) (user_msg : String) (stuck_count : Nat) : String :=
  "\nThe user is stuck on: " ++ current_step.title
    ++ "\nDescription: " ++ current_step.description
    ++ "\nThey said: \"" ++ user_msg
    ++ "\"\nTimes they\x27ve asked for help: " ++ toString stuck_count
    ++ "\n\nProvide " ++ help_level stuck_count
    ++ ". Be understanding and practical. \n\nIf they\x27ve been stuck multiple times, consider suggesting they might want to break this down into smaller parts or try a different approach.\n"

/-- The fixed structured fallback of `help_node`'s except branch. -/
def help_fallback (current_step : Step) : String :=
  "I can see you\x27re having trouble with " ++ current_step.title
    ++ ". That\x27s totally normal!\n        \nHere are some ways to approach it:\n1. Break it into smaller 15-minute tasks\n2. Focus on just one small part today\n3. Ask yourself: what\x27s the smallest step I could take right now?\n\n"
    ++ current_step.tips ++ "\n\nWhat feels most manageable to you?"

/-- `help_node`: targeted help; `none` models the uncaught IndexError of
`state["steps"][current_idx]` on an out-of-range index (that access is
outside the try block).  Second component counts model calls. -/
def help_node (llm : LlmPort) (s : GoalMentorState) : Option (GoalMentorState × Nat) :=
  match s.steps[s.current_step_index]? with
  | none => none
  | some current_step =>
    match llm.invoke (create_conversation_context s
        ++ [Msg.human (help_prompt current_step s.user_message s.stuck_count)]) with
    | Except.ok content =>
      let assistant_msg := py_strip content
      some ({ s with
          assistant_response := assistant_msg
          conversation_history := s.conversation_history
            ++ [⟨"user", s.user_message⟩, ⟨"assistant", assistant_msg⟩]
          mode := Mode.execution }, 1)
    | Except.error _ =>
      some ({ s with
          assistant_response := help_fallback current_step
          mode := Mode.execution }, 1)

/-- One line of the completion celebration's step list. -/
def completion_mark (s : GoalMentorState) (i : Nat) (st : Step) : String :=
  if (dict_get s.completion_status i).isSome then "✅ " ++ st.title ++ "\n"
  else "📝 " ++ st.title ++ "\n"

/-- The celebration message synthesized by `completion_node`. -/
def celebration_msg (s : GoalMentorState) : String :=
  "🎉 CONGRATULATIONS! 🎉\n\nYou\x27ve successfully completed your 4-week journey toward \""
    ++ s.goal ++ "\"!\n\nHere\x27s what you accomplished:\n"
    ++ String.join ((s.steps.enum).map (fun p => completion_mark s p.1 p.2))
    ++ "\nThat\x27s incredible dedication! You should be proud of yourself.\n\nWhat\x27s next? Ready to set a new goal, or do you want to keep building on this one?"

/-- `completion_node`: no model call; appends the celebration to history. -/
def completion_node (s : GoalMentorState) : GoalMentorState :=
  { s with
      assistant_response := celebration_msg s
      conversation_history := s.conversation_history ++ [⟨"assistant", celebration_msg s⟩] }

/-- `route_conversation`: NEW_GOAL phrases win over mode dispatch. -/
def route_conversation (s : GoalMentorState) : String :=
  let user_msg := py_lower s.user_message
  if contains_any user_msg new_goal_words then ("goal_analysis")
  else
    match s.mode with
    | Mode.goal_setting => ("goal_analysis")
    | Mode.planning => ("planning")
    | Mode.help => ("help")
    | Mode.completed => ("completion")
    | Mode.execution => ("execution")

/-- The fresh session state of `initialize_session_state` (also installed
by the front end's New Goal reset button). -/
def initial_state : GoalMentorState :=
  { goal := ""
    goal_refined := false
    steps := []
    current_step_index := 0
    user_message := ""
    assistant_response := "Hi! I\x27m your Goal Mentor. What goal would you like to work on together?"
    conversation_history := []
    mode := Mode.goal_setting
    user_feedback := []
    stuck_count := 0
    completion_status := []
    next_action := "" }

/-- One line of `main.py`'s `generate_plan` numbered-list parse: after
stripping, a line counts as a step when it is nonempty, longer than two
characters, starts with a digit, and contains `". "`; the step text is
everything after the first `". "`, stripped. -/
def chars_after (pat : List Char) : List Char → Option (List Char)
  | [] => if chars_starts pat [] then some [] else none
  | c :: cs =>
    if chars_starts pat (c :: cs) then some ((c :: cs).drop pat.length)
    else chars_after pat cs

/-- Whether a character is an ASCII decimal digit (`str.isdigit` on the
modelled ASCII subset). -/
def is_digit (c : Char) : Bool :=
  48 ≤ c.toNat ∧ c.toNat ≤ 57

/-- `main.py` `generate_plan`: one stripped line to an optional step. -/
def line_to_step (line0 : String) : Option String :=
  let line := py_strip line0
  if (!(line == (""))) && decide (2 < line.length)
      && (match line.toList with
          | c :: _ => is_digit c
          | [] => false)
      && str_contains line (". ") then
    (chars_after (". ").toList line.toList).map (fun cs => py_strip (String.mk cs))
  else none

/-- `main.py` `generate_plan`: extract the numbered-list steps from the
model text. -/
def generate_plan_parse (text : String) : List String :=
  (py_split_nl text).filterMap line_to_step

/-- `main.py` `generate_plan`: one model call; numbered-list parse of the
reply; any raised error yields the empty list (no fallback plan). -/
def generate_plan (llm : LlmPort) (goal : String) : List String :=
  match llm.invoke
      [Msg.system ("Break the user\x27s goal into 4 clear, actionable weekly steps. Format as a numbered list (1. step one\n2. step two\n etc.). Each step should be specific and measurable."),
       Msg.human ("My goal is: " ++ goal)] with
  | Except.ok text => generate_plan_parse (py_strip text)
  | Except.error _ => []

/-! ## Verification -/

/-- A simulated `LanguageModelPort` that always fails (raises). -/
def llm_always_fail : LlmPort := ⟨fun _ => Except.error ()⟩

/-- The always-failing port fails on every message list. -/
theorem llm_always_fail_spec (msgs : List Msg) :
    llm_always_fail.invoke msgs = Except.error () := rfl

/-- `chars_starts` succeeds on a list that begins with the pattern. -/
theorem chars_starts_append (pat rest : List Char) :
    chars_starts pat (pat ++ rest) = true := by
  induction pat with
  | nil => rfl
  | cons p ps ih => simp [chars_starts, ih]

/-- `chars_has` finds the pattern wherever it occurs. -/
theorem chars_has_append (pre pat post : List Char) :
    chars_has pat (pre ++ (pat ++ post)) = true := by
  induction pre with
  | nil =>
    simp only [List.nil_append]
    cases h : pat ++ post with
    | nil =>
      have hp : pat = [] := by
        cases pat with
        | nil => rfl
        | cons a as => simp at h
      subst hp
      rfl
    | cons c cs =>
      have hs : chars_starts pat (c :: cs) = true := by
        rw [← h]
        exact chars_starts_append pat post
      rw [← h]
      rw [h]
      simp [chars_has, hs]
  | cons p ps ih =>
    simp only [List.cons_append]
    cases hs : chars_starts pat (p :: (ps ++ (pat ++ post))) with
    | true => simp [chars_has, hs]
    | false => simp [chars_has, hs, ih]

/-- A string occurring between two others is found by `str_contains`. -/
theorem str_contains_middle (a b c : String) :
    str_contains (a ++ b ++ c) b = true := by
  have hl : (a ++ b ++ c).toList = a.toList ++ (b.toList ++ c.toList) := by
    show (a ++ b ++ c).data = a.data ++ (b.data ++ c.data)
    simp [String.data_append]
  simp only [str_contains, hl]
  exact chars_has_append a.toList b.toList c.toList

/-- A state sitting in planning mode, as entered from goal analysis. -/
def planning_entry_state : GoalMentorState :=
  { initial_state with mode := Mode.planning, goal_refined := true }

/-- C3: for a state in planning mode and a port that always fails, one
invocation of `planning_node` yields a plan of exactly four steps (the
deterministic fallback), mode `execution`, `current_step_index = 0`, and
performs exactly one model call (hence at most one, with no retries). -/
theorem C3_planning_survives_model_failure (llm : LlmPort) (s : GoalMentorState)
    (_hmode : s.mode = Mode.planning)
    (hfail : ∀ msgs, llm.invoke msgs = Except.error ()) :
    ((planning_node llm s).1).steps.length = 4
    ∧ ((planning_node llm s).1).mode = Mode.execution
    ∧ ((planning_node llm s).1).current_step_index = 0
    ∧ (planning_node llm s).2 = 1 := by
  have h := hfail (planning_messages s)
  refine ⟨?_, ?_, ?_, ?_⟩ <;>
    simp [planning_node, h, planning_fallback_state, fallback_steps]

/-- Witness for C3 at the fresh planning state and the always-failing port. -/
theorem C3_witness :
    ((planning_node llm_always_fail planning_entry_state).1).steps.length = 4
    ∧ ((planning_node llm_always_fail planning_entry_state).1).mode = Mode.execution
    ∧ ((planning_node llm_always_fail planning_entry_state).1).current_step_index = 0
    ∧ (planning_node llm_always_fail planning_entry_state).2 = 1 :=
  C3_planning_survives_model_failure llm_always_fail planning_entry_state rfl
    (fun _ => rfl)

/-- The concrete execution-mode state of C4: plan of length 4, current
step index 3, user input `"done, finally!"`. -/
def c4_state : GoalMentorState :=
  { initial_state with
      goal := "learn piano"
      goal_refined := true
      steps := fallback_steps ("learn piano")
      current_step_index := 3
      mode := Mode.execution
      user_message := "done, finally!" }

/-- C4: on `"done, finally!"` at the last step, `execution_node` takes the
STEP_DONE branch: `current_step_index` becomes 4, mode becomes `completed`,
a completion record is present at index 3, and no model call is made. -/
theorem C4_step_done_completes (llm : LlmPort) :
    ((execution_node llm c4_state).1).current_step_index = 4
    ∧ ((execution_node llm c4_state).1).mode = Mode.completed
    ∧ (dict_get ((execution_node llm c4_state).1).completion_status 3).isSome = true
    ∧ (execution_node llm c4_state).2 = 0 := by
  refine ⟨?_, ?_, ?_, ?_⟩ <;> rfl

/-- C5: whenever `execution_node` is entered with
`current_step_index ≥ len(plan)`, it returns the state with mode forced to
`completed`, changes nothing else, makes no model call, and does not
raise (it is a total function). -/
theorem C5_overrun_forces_completed (llm : LlmPort) (s : GoalMentorState)
    (h : s.steps.length ≤ s.current_step_index) :
    execution_node llm s = ({ s with mode := Mode.completed }, 0) := by
  simp [execution_node, h]

/-- Witness for C5: an empty plan with index 5 at the always-failing port. -/
theorem C5_witness :
    execution_node llm_always_fail
        { initial_state with mode := Mode.execution, current_step_index := 5 }
      = ({ initial_state with mode := Mode.completed, current_step_index := 5 }, 0) :=
  C5_overrun_forces_completed llm_always_fail
    { initial_state with mode := Mode.execution, current_step_index := 5 }
    (by decide)

/-- A port whose reply is a well-formed JSON object whose `steps` array is
empty (and so is shorter than the expected four). -/
def llm_steps_empty : LlmPort :=
  ⟨fun _ => Except.ok ("\x7b\"steps\": []\x7d")⟩

/-- C1 counterexample: the claim says any missing `steps` content or fewer
than four parsed steps triggers the four-step fallback, so the plan is
never shorter than four.  In the code the fallback fires only on a raised
exception: the reply `\x7b"steps": []\x7d` parses fine, is accepted
verbatim, and `planning_node` installs a 0-step plan (and still moves to
`execution`).  Likewise `main.py`'s numbered-list parser returns however
many lines matched -- here zero -- with no fallback at all. -/
theorem C1_counterexample :
    ((planning_node llm_steps_empty planning_entry_state).1).steps.length = 0
    ∧ ((planning_node llm_steps_empty planning_entry_state).1).mode = Mode.execution
    ∧ generate_plan_parse ("I could not make a plan, sorry.") = [] := by
  refine ⟨?_, ?_, ?_⟩ <;> rfl

/-- C1 amended: `planning_node` never raises (it is total), and whenever
the model call fails, or its reply raises during parsing (ill-formed JSON,
or a JSON document that is not an object, so that `.get` raises), the
result is exactly the fixed four-step goal-parameterized fallback plan.
A successfully parsed object, however, is accepted verbatim even when its
`steps` are missing, empty, or fewer than four. -/
theorem C1_parse_failure_fallback (llm : LlmPort) (s : GoalMentorState)
    (h : ∀ raw, llm.invoke (planning_messages s) = Except.ok raw → planning_parse raw = none) :
    (planning_node llm s).1 = planning_fallback_state s
    ∧ ((planning_node llm s).1).steps = fallback_steps s.goal
    ∧ ((planning_node llm s).1).steps.length = 4 := by
  have key : (planning_node llm s).1 = planning_fallback_state s := by
    cases hinv : llm.invoke (planning_messages s) with
    | error e => simp [planning_node, hinv]
    | ok raw => simp [planning_node, hinv, h raw hinv]
  refine ⟨key, ?_, ?_⟩ <;> rw [key] <;> rfl

/-- Witness for the amended C1 at the always-failing port. -/
theorem C1_witness :
    (planning_node llm_always_fail planning_entry_state).1
        = planning_fallback_state planning_entry_state
    ∧ ((planning_node llm_always_fail planning_entry_state).1).steps
        = fallback_steps planning_entry_state.goal
    ∧ ((planning_node llm_always_fail planning_entry_state).1).steps.length = 4 :=
  C1_parse_failure_fallback llm_always_fail planning_entry_state
    (fun _ hr => Except.noConfusion hr)

/-- The concrete mid-execution state of C2: a goal in progress with a full
plan, index 2, stuck count 3, and a NEW_GOAL-triggering user input. -/
def c2_state : GoalMentorState :=
  { initial_state with
      goal := "learn piano"
      goal_refined := true
      steps := fallback_steps ("learn piano")
      current_step_index := 2
      stuck_count := 3
      mode := Mode.execution
      user_message := "new goal please"
      conversation_history := [⟨"user", "hi"⟩] }

/-- C2 counterexample: the router does dispatch `"new goal please"` to the
goal-analysis handler, but that NEW_GOAL transition performs no reset: the
handler patches the state, leaving the plan (still 4 steps), the step
index (still 2), the stuck count (still 3), the goal, and the history all
in place -- nothing is cleared.  (The wholesale reset exists only in the
front end's New Goal button, outside the graph.) -/
theorem C2_counterexample :
    route_conversation c2_state = ("goal_analysis")
    ∧ ((goal_analysis_node llm_always_fail c2_state).1).steps.length = 4
    ∧ ((goal_analysis_node llm_always_fail c2_state).1).current_step_index = 2
    ∧ ((goal_analysis_node llm_always_fail c2_state).1).stuck_count = 3
    ∧ ((goal_analysis_node llm_always_fail c2_state).1).goal = ("learn piano")
    ∧ ((goal_analysis_node llm_always_fail c2_state).1).conversation_history
        = [⟨"user", "hi"⟩] := by
  refine ⟨?_, ?_, ?_, ?_, ?_, ?_⟩ <;> rfl

/-- C2 amended: for every mode, a user input containing "new goal",
"start over", or "different goal" (case-insensitive) routes to the
goal-analysis handler; but the handler patches rather than clears the
state -- it preserves goal, plan, current_step_index, stuck_count and
completions on both its branches (the full reset lives in the front end's
New Goal button, not in this transition). -/
theorem C2_new_goal_routes_but_no_reset (llm : LlmPort) (s : GoalMentorState)
    (h : contains_any (py_lower s.user_message) new_goal_words = true) :
    route_conversation s = ("goal_analysis")
    ∧ ((goal_analysis_node llm s).1).goal = s.goal
    ∧ ((goal_analysis_node llm s).1).steps = s.steps
    ∧ ((goal_analysis_node llm s).1).current_step_index = s.current_step_index
    ∧ ((goal_analysis_node llm s).1).stuck_count = s.stuck_count
    ∧ ((goal_analysis_node llm s).1).completion_status = s.completion_status := by
  have hframe :
      ((goal_analysis_node llm s).1).goal = s.goal
      ∧ ((goal_analysis_node llm s).1).steps = s.steps
      ∧ ((goal_analysis_node llm s).1).current_step_index = s.current_step_index
      ∧ ((goal_analysis_node llm s).1).stuck_count = s.stuck_count
      ∧ ((goal_analysis_node llm s).1).completion_status = s.completion_status := by
    cases hinv : llm.invoke (goal_analysis_messages s) <;>
      refine ⟨?_, ?_, ?_, ?_, ?_⟩ <;> simp [goal_analysis_node, hinv]
  refine ⟨?_, hframe.1, hframe.2.1, hframe.2.2.1, hframe.2.2.2.1, hframe.2.2.2.2⟩
  simp [route_conversation, h]

/-- Witness for the amended C2 at the concrete mid-execution state. -/
theorem C2_witness :
    route_conversation c2_state = ("goal_analysis")
    ∧ ((goal_analysis_node llm_always_fail c2_state).1).goal = c2_state.goal
    ∧ ((goal_analysis_node llm_always_fail c2_state).1).steps = c2_state.steps
    ∧ ((goal_analysis_node llm_always_fail c2_state).1).current_step_index
        = c2_state.current_step_index
    ∧ ((goal_analysis_node llm_always_fail c2_state).1).stuck_count = c2_state.stuck_count
    ∧ ((goal_analysis_node llm_always_fail c2_state).1).completion_status
        = c2_state.completion_status :=
  C2_new_goal_routes_but_no_reset llm_always_fail c2_state (by rfl)

/-- C6: across every handler invocation the step index never decreases --
goal analysis, help and completion preserve it, execution either preserves
or increments it -- and only the planning handler (installing a fresh
plan) sets it back to 0. -/
theorem C6_index_monotone (llm : LlmPort) (s : GoalMentorState) :
    ((goal_analysis_node llm s).1).current_step_index = s.current_step_index
    ∧ ((planning_node llm s).1).current_step_index = 0
    ∧ s.current_step_index ≤ ((execution_node llm s).1).current_step_index
    ∧ (∀ t, help_node llm s = some t → (t.1).current_step_index = s.current_step_index)
    ∧ (completion_node s).current_step_index = s.current_step_index := by
  refine ⟨?_, ?_, ?_, ?_, ?_⟩
  · cases hinv : llm.invoke (goal_analysis_messages s) <;>
      simp [goal_analysis_node, hinv]
  · cases hinv : llm.invoke (planning_messages s) with
    | error e => simp [planning_node, hinv, planning_fallback_state]
    | ok raw =>
      cases hp : planning_parse raw with
      | none => simp [planning_node, hinv, hp, planning_fallback_state]
      | some p => simp [planning_node, hinv, hp]
  · simp only [execution_node]
    split
    · exact Nat.le_refl _
    · split
      · exact Nat.le_succ _
      · split
        · exact Nat.le_refl _
        · split <;> exact Nat.le_refl _
  · intro t ht
    cases hg : s.steps[s.current_step_index]? with
    | none => simp [help_node, hg] at ht
    | some st =>
      cases hinv : llm.invoke (create_conversation_context s
          ++ [Msg.human (help_prompt st s.user_message s.stuck_count)]) with
      | ok content =>
        simp only [help_node, hg, hinv, Option.some.injEq] at ht
        subst ht
        rfl
      | error e =>
        simp only [help_node, hg, hinv, Option.some.injEq] at ht
        subst ht
        rfl
  · rfl

/-- The concrete in-help state used to witness C6. -/
def c6_state : GoalMentorState :=
  { initial_state with
      goal := "learn piano"
      goal_refined := true
      steps := fallback_steps ("learn piano")
      current_step_index := 1
      stuck_count := 1
      mode := Mode.help
      user_message := "still stuck" }

/-- Witness for C6 at a concrete mid-goal state and the failing port. -/
theorem C6_witness :
    ((goal_analysis_node llm_always_fail c6_state).1).current_step_index
        = c6_state.current_step_index
    ∧ ((planning_node llm_always_fail c6_state).1).current_step_index = 0
    ∧ c6_state.current_step_index
        ≤ ((execution_node llm_always_fail c6_state).1).current_step_index
    ∧ (help_node llm_always_fail c6_state).map (fun t => (t.1).current_step_index)
        = some c6_state.current_step_index
    ∧ (completion_node c6_state).current_step_index = c6_state.current_step_index := by
  have h := C6_index_monotone llm_always_fail c6_state
  exact ⟨h.1, h.2.1, h.2.2.1, rfl, h.2.2.2.2⟩

/-- C7: the context builder returns exactly one synthesized system message
(summarizing goal, mode, 1-based current step of total, stuck count)
followed by exactly the last six history entries in original order (all of
them when the history is shorter), as a pure function of the state. -/
theorem C7_context_builder (s : GoalMentorState) :
    (create_conversation_context s).length = 1 + min 6 s.conversation_history.length
    ∧ (create_conversation_context s).head? = some (Msg.system (system_context s))
    ∧ (create_conversation_context s).tail
        = (s.conversation_history.drop (s.conversation_history.length - 6)).map render_turn := by
  refine ⟨?_, rfl, rfl⟩
  simp [create_conversation_context, List.length_map, List.length_drop]
  omega

/-- C9 counterexample: the claim says every path setting
`goal_refined = true` keeps the goal non-empty.  But the goal-analysis
model-failure branch sets `goal_refined = true` unconditionally: from the
fresh session state (empty goal, `goal_setting` mode, so the router
dispatches here) one turn with a failing model yields a reachable state
with `goal_refined = true` and an empty goal. -/
theorem C9_counterexample :
    ((goal_analysis_node llm_always_fail
        { initial_state with user_message := "hi" }).1).goal_refined = true
    ∧ ((goal_analysis_node llm_always_fail
        { initial_state with user_message := "hi" }).1).goal = ("") := by
  refine ⟨?_, ?_⟩ <;> rfl

/-- C9 amended: the goal-analysis handler never writes the goal string, so
the implication `goal_refined = true → goal nonempty` survives the handler
exactly when the goal was non-empty on entry; it is not an unconditional
invariant (the handler sets `goal_refined = true` even for an empty
goal). -/
theorem C9_goal_preserved (llm : LlmPort) (s : GoalMentorState)
    (h : ¬ s.goal = ("")) :
    ((goal_analysis_node llm s).1).goal = s.goal
    ∧ (((goal_analysis_node llm s).1).goal_refined = true →
        ¬ ((goal_analysis_node llm s).1).goal = ("")) := by
  have hg : ((goal_analysis_node llm s).1).goal = s.goal := by
    cases hinv : llm.invoke (goal_analysis_messages s) <;>
      simp [goal_analysis_node, hinv]
  refine ⟨hg, fun _ => ?_⟩
  rw [hg]
  exact h

/-- Witness for the amended C9 at a non-empty goal and the failing port. -/
theorem C9_witness :
    ((goal_analysis_node llm_always_fail
        { initial_state with goal := "learn piano" }).1).goal
      = ({ initial_state with goal := "learn piano" } : GoalMentorState).goal
    ∧ (((goal_analysis_node llm_always_fail
        { initial_state with goal := "learn piano" }).1).goal_refined = true →
        ¬ ((goal_analysis_node llm_always_fail
            { initial_state with goal := "learn piano" }).1).goal = ("")) :=
  C9_goal_preserved llm_always_fail { initial_state with goal := "learn piano" }
    (by decide)

/-- The concrete mid-execution state used to witness C10: the user input
matches no control keyword, so the general-discussion branch runs. -/
def c10_state : GoalMentorState :=
  { initial_state with
      goal := "learn piano"
      goal_refined := true
      steps := fallback_steps ("learn piano")
      current_step_index := 0
      mode := Mode.execution
      user_message := "tell me more"
      conversation_history := [⟨"user", "hi"⟩] }

/-- C10: when the model call fails in a free-form branch, the conversation
history is left unchanged -- neither the user turn nor the fallback is
appended -- and every other field is unchanged except the response text
(for the execution general-discussion branch) respectively the response
text, mode and goal_refined (for the goal-analysis failure branch), in
contrast to the success branches which append both turns. -/
theorem C10_failure_frame (llm : LlmPort) (s : GoalMentorState)
    (hfail : ∀ msgs, llm.invoke msgs = Except.error ())
    (hidx : s.current_step_index < s.steps.length)
    (hdone : contains_any (py_lower s.user_message) step_done_words = false)
    (hhelp : contains_any (py_lower s.user_message) needs_help_words = false) :
    (execution_node llm s).1
        = { s with assistant_response :=
              exec_step_fallback (s.steps.getD s.current_step_index default) }
    ∧ ((execution_node llm s).1).conversation_history = s.conversation_history
    ∧ (goal_analysis_node llm s).1
        = { s with
              assistant_response := goal_analysis_fallback s.goal
              mode := Mode.planning
              goal_refined := true }
    ∧ ((goal_analysis_node llm s).1).conversation_history = s.conversation_history := by
  have h1 : ¬ (s.steps.length ≤ s.current_step_index) := by omega
  have e1 : (execution_node llm s).1
      = { s with assistant_response :=
            exec_step_fallback (s.steps.getD s.current_step_index default) } := by
    simp [execution_node, h1, hdone, hhelp, hfail]
  have e2 : (goal_analysis_node llm s).1
      = { s with
            assistant_response := goal_analysis_fallback s.goal
            mode := Mode.planning
            goal_refined := true } := by
    simp [goal_analysis_node, hfail]
  exact ⟨e1, by rw [e1], e2, by rw [e2]⟩

/-- Witness for C10 at the concrete state and the failing port. -/
theorem C10_witness :
    (execution_node llm_always_fail c10_state).1
        = { c10_state with assistant_response :=
              exec_step_fallback (c10_state.steps.getD c10_state.current_step_index default) }
    ∧ ((execution_node llm_always_fail c10_state).1).conversation_history
        = c10_state.conversation_history
    ∧ (goal_analysis_node llm_always_fail c10_state).1
        = { c10_state with
              assistant_response := goal_analysis_fallback c10_state.goal
              mode := Mode.planning
              goal_refined := true }
    ∧ ((goal_analysis_node llm_always_fail c10_state).1).conversation_history
        = c10_state.conversation_history :=
  C10_failure_frame llm_always_fail c10_state (fun _ => rfl) (by decide) rfl rfl

/-- C8: with a current step in range, the help handler always returns a
state in `execution` mode after exactly one model call, whatever the call
outcome; the prompt interpolates the escalation tier selected from
`stuck_count` (1: gentle encouragement, 2: specific actionable advice, 3
or more: detailed step-by-step breakdown); and on model failure the
response is the fixed structured fallback built from the current step's
title and tips. -/
theorem C8_help_always_returns_execution (llm : LlmPort) (s : GoalMentorState)
    (st : Step) (hg : s.steps[s.current_step_index]? = some st) :
    (∃ t, help_node llm s = some t ∧ (t.1).mode = Mode.execution ∧ t.2 = 1)
    ∧ (s.stuck_count = 1 →
        help_level s.stuck_count = ("gentle encouragement and tips"))
    ∧ (s.stuck_count = 2 →
        help_level s.stuck_count = ("more specific, actionable advice"))
    ∧ (3 ≤ s.stuck_count →
        help_level s.stuck_count = ("very detailed, step-by-step breakdown"))
    ∧ str_contains (help_prompt st s.user_message s.stuck_count)
        (help_level s.stuck_count) = true
    ∧ (llm.invoke (create_conversation_context s
          ++ [Msg.human (help_prompt st s.user_message s.stuck_count)]) = Except.error () →
        help_node llm s
          = some ({ s with
              assistant_response := help_fallback st
              mode := Mode.execution }, 1)) := by
  refine ⟨?_, ?_, ?_, ?_, ?_, ?_⟩
  · cases hinv : llm.invoke (create_conversation_context s
        ++ [Msg.human (help_prompt st s.user_message s.stuck_count)]) with
    | ok content =>
      refine ⟨({ s with
          assistant_response := py_strip content
          conversation_history := s.conversation_history
            ++ [⟨"user", s.user_message⟩, ⟨"assistant", py_strip content⟩]
          mode := Mode.execution }, 1), ?_, rfl, rfl⟩
      simp [help_node, hg, hinv]
    | error e =>
      refine ⟨({ s with
          assistant_response := help_fallback st
          mode := Mode.execution }, 1), ?_, rfl, rfl⟩
      simp [help_node, hg, hinv]
  · intro h
    rw [h]
    rfl
  · intro h
    rw [h]
    rfl
  · intro h3
    have h1 : s.stuck_count ≠ 1 := by omega
    have h2 : s.stuck_count ≠ 2 := by omega
    simp [help_level, h1, h2]
  · show str_contains (help_prompt st s.user_message s.stuck_count)
        (help_level s.stuck_count) = true
    unfold help_prompt
    exact str_contains_middle _ _ _
  · intro hinv
    simp [help_node, hg, hinv]

/-- The concrete in-help state used to witness C8 (stuck count 2). -/
def c8_state : GoalMentorState :=
  { initial_state with
      goal := "learn piano"
      goal_refined := true
      steps := fallback_steps ("learn piano")
      current_step_index := 1
      stuck_count := 2
      mode := Mode.help
      user_message := "I am stuck" }

/-- The current step of `c8_state`. -/
def c8_step : Step := (fallback_steps ("learn piano")).getD 1 default

/-- Witness for C8 at the concrete state and the always-failing port. -/
theorem C8_witness :
    help_level c8_state.stuck_count = ("more specific, actionable advice")
    ∧ str_contains (help_prompt c8_step c8_state.user_message c8_state.stuck_count)
        (help_level c8_state.stuck_count) = true
    ∧ help_node llm_always_fail c8_state
        = some ({ c8_state with
            assistant_response := help_fallback c8_step
            mode := Mode.execution }, 1) := by
  have h := C8_help_always_returns_execution llm_always_fail c8_state c8_step rfl
  exact ⟨h.2.2.1 rfl, h.2.2.2.2.1, h.2.2.2.2.2 rfl⟩
